import Mathlib

/-!
Verification of the spend-analyzer extraction pipeline.

This file gives a shallow embedding of the pipeline implemented in
`analyze.py` and `llama.py`: the message normalizer (`parse_sms_xml`),
the response interpreter inside `analyze_sms`, the record assembler
(`analyze_sms_list`), the defaulting step (`ensure_keys`) and the
relational persistence (`save_to_sqlite` over a table with a UNIQUE
constraint on `body_md5`).

Modelling conventions, stated once:
- Python values flowing through the pipeline (JSON values, record
  fields) are modelled by `JVal`; Python `None` and JSON `null` are the
  same object in Python and are both `JVal.null`.
- Python floats are modelled as rationals; every numeric literal the
  claims touch is exactly representable, and no claim depends on
  binary rounding.
- Python exceptions are modelled by `PyExc` and fallible code returns
  `Except PyExc`; a `try/except` clause is a `match` on that result.
- Strings are processed as their character lists; `String.mk` of a
  character list rebuilds the Python string.
- The external model service (ollama) is an input: `analyze_sms` takes
  the raw response text as a parameter (`Except Unit String`, where
  `error` models a transport error raised by the client call).
- Library functions of Python used by the source (`json.loads`,
  `json.dumps`, `float`, `int`, `str.strip`, `re.search` for the one
  pattern the source uses, `hashlib.md5`, `datetime.fromtimestamp`)
  are embedded with their documented semantics; abstractions that no
  claim depends on are noted at each definition.
-/

/-- A Python runtime value as the pipeline sees it: the result of
`json.loads`, or a field of the assembled record. `null` is both JSON
null and Python `None`. Numbers are rationals (the int/float
distinction of Python is collapsed; no claim depends on it). -/
inductive JVal where
  | null : JVal
  | bool : Bool → JVal
  | num : ℚ → JVal
  | str : String → JVal
  | arr : List JVal → JVal
  | obj : List (String × JVal) → JVal

/-- The Python exceptions the embedded code can raise or catch. -/
inductive PyExc where
  | valueError : PyExc
  | typeError : PyExc
  | overflowError : PyExc
  | osError : PyExc
  | attributeError : PyExc
  | interfaceError : PyExc
deriving DecidableEq

/-- Python truthiness of a `JVal`: `None`, `False`, `0`, empty string,
empty list and empty dict are falsy (used by `if not sms.get('body')`
and by `if json_analysis`). -/
def pyTruthy : JVal → Bool
  | .null => false
  | .bool b => b
  | .num q => q != 0
  | .str s => !s.data.isEmpty
  | .arr l => !l.isEmpty
  | .obj l => !l.isEmpty

/-- Lookup in a Python dict built from an association list where a later
binding of the same key overwrites an earlier one (as `json.loads`
builds dicts: the last duplicate key wins). -/
def lookupLast : List (String × JVal) → String → Option JVal
  | [], _ => none
  | (k2, v) :: rest, k =>
    match lookupLast rest k with
    | some w => some w
    | none => if k2 = k then some v else none

/-- Python `x.get(key, default)`: defined on a dict; on any other value
(including `None`) attribute access raises `AttributeError`. -/
def dictGet (ja : JVal) (k : String) (d : JVal) : Except PyExc JVal :=
  match ja with
  | .obj l => .ok ((lookupLast l k).getD d)
  | _ => .error .attributeError

/-- Python `x.get(key)` with no default: the default is `None`. -/
def dictGet1 (ja : JVal) (k : String) : Except PyExc JVal :=
  dictGet ja k JVal.null

/-- Characters Python `str.strip()` removes (ASCII whitespace; the
unicode whitespace Python also strips never occurs in the inputs the
claims are about). -/
def isPyWs (c : Char) : Bool :=
  c = ' ' || c = '\t' || c = '\n' || c = '\x0d' || c = '\x0b' || c = '\x0c'

/-- Python `str.strip()` on a character list. -/
def stripChars (cs : List Char) : List Char :=
  ((cs.dropWhile isPyWs).reverse.dropWhile isPyWs).reverse

/-- Python `str.strip()`, from `sms_dict['address'] = str(...).strip()`. -/
def pyStrip (s : String) : String :=
  String.mk (stripChars s.data)

/-- Cleaning step of `parse_sms_xml` (`remove_newlines_non_ascii` in
`analyze.py`): replace newlines by spaces, drop non-ASCII characters
(`encode('ascii', 'ignore')`), then remove double and single quotes. -/
def remove_newlines_non_ascii (text : String) : String :=
  String.mk (((text.data.map (fun c => if c = '\n' then ' ' else c)).filter
    (fun c => c.toNat < 128)).filter (fun c => ¬ (c = '"' ∨ c = '\x27')))

/-- Digit test for ASCII decimal digits. -/
def isDig (c : Char) : Bool := '0' ≤ c ∧ c ≤ '9'

/-- Numeric value of a list of ASCII digits. -/
def digitsVal (cs : List Char) : Nat :=
  cs.foldl (fun a c => 10 * a + (c.toNat - 48)) 0

/-- Python `int(s)` on a string: strip whitespace, optional sign, a
nonempty digit run; anything else raises `ValueError`. (The underscore
digit separators Python also accepts are not modelled; no claim uses
them.) Python ints are unbounded, so no overflow here. -/
def pyInt (s : String) : Except PyExc Int :=
  match stripChars s.data with
  | [] => .error .valueError
  | c :: rest =>
    let (sgn, ds) : Int × List Char :=
      if c = '-' then (-1, rest) else if c = '+' then (1, rest) else (1, c :: rest)
    if ds ≠ [] ∧ ds.all isDig then .ok (sgn * (digitsVal ds : Int))
    else .error .valueError

/-- Python `float(s)` on a string: strip whitespace, optional sign, then
`digits [. digits]` or `. digits`, with an optional exponent. Returns
the exact decimal value as a rational; `none` models the `ValueError`
Python raises for a non-numeric string. (The literals `inf` and `nan`
and underscore separators are not modelled; no claim uses them.) -/
def pyFloatStr (s : String) : Option ℚ :=
  match stripChars s.data with
  | [] => none
  | c :: rest =>
    let (neg, body) : Bool × List Char :=
      if c = '-' then (true, rest) else if c = '+' then (false, rest) else (false, c :: rest)
    let ip := body.takeWhile isDig
    let afterInt := body.dropWhile isDig
    let withFrac : Option (Nat × Nat × List Char) :=
      match afterInt with
      | '.' :: rest2 =>
        let fp := rest2.takeWhile isDig
        if ip = [] ∧ fp = [] then none
        else some (digitsVal (ip ++ fp), fp.length, rest2.dropWhile isDig)
      | _ => if ip = [] then none else some (digitsVal ip, 0, afterInt)
    match withFrac with
    | none => none
    | some (mant, fracLen, rest3) =>
      let signed : ℚ → ℚ := fun q => if neg then -q else q
      match rest3 with
      | [] =>
        if fracLen = 0 then some (signed (mant : ℚ))
        else some (signed ((mant : ℚ) / ((10 : ℚ) ^ fracLen)))
      | e :: rest4 =>
        if e = 'e' ∨ e = 'E' then
          let (esgn, eds) : Int × List Char :=
            match rest4 with
            | '-' :: r => (-1, r)
            | '+' :: r => (1, r)
            | r => (1, r)
          if eds ≠ [] ∧ eds.all isDig then
            some (signed ((mant : ℚ) / ((10 : ℚ) ^ fracLen) *
              ((10 : ℚ) ^ (esgn * (digitsVal eds : Int)))))
          else none
        else none

/-- Python `float(value)` on an arbitrary value: numbers pass through,
booleans become 0 or 1, strings are parsed (`ValueError` when
non-numeric), and `None`, lists and dicts raise `TypeError`. -/
def pyFloat (v : JVal) : Except PyExc ℚ :=
  match v with
  | .num q => .ok q
  | .bool b => .ok (if b then 1 else 0)
  | .str s =>
    match pyFloatStr s with
    | some q => .ok q
    | none => .error .valueError
  | _ => .error .typeError

/-- The `floatify` helper of `analyze.py`: `float(value)` with only
`ValueError` caught and turned into `0.0`; any other exception (for
example the `TypeError` raised by `float(None)`) propagates. -/
def floatify (v : JVal) : Except PyExc ℚ :=
  match pyFloat v with
  | .error .valueError => .ok 0
  | r => r

/-- Whitespace skipped by the JSON parser. -/
def skipWs (cs : List Char) : List Char :=
  cs.dropWhile (fun c => c = ' ' || c = '\t' || c = '\n' || c = '\x0d')

/-- Consume an expected literal tail, for `null`, `true`, `false`. -/
def dropLit : List Char → List Char → Option (List Char)
  | [], cs => some cs
  | l :: ls, c :: cs => if l = c then dropLit ls cs else none
  | _ :: _, [] => none

/-- One escaped or plain character of a JSON string body; control
characters are rejected as `json.loads` does in strict mode. Returns
the decoded character and the rest, or `none` at the closing quote or
on an error. (Surrogate pairs in escapes are not combined; no claim
uses them.) -/
def hexVal (c : Char) : Option Nat :=
  if isDig c then some (c.toNat - 48)
  else if 'a' ≤ c ∧ c ≤ 'f' then some (c.toNat - 87)
  else if 'A' ≤ c ∧ c ≤ 'F' then some (c.toNat - 55)
  else none

/-- JSON number syntax: optional minus, integer part without leading
zeros, optional fraction, optional exponent; value as an exact
rational. `none` models a parse error. -/
def parseNumber (cs : List Char) : Option (ℚ × List Char) :=
  let (sgn, body) : ℚ × List Char :=
    match cs with
    | '-' :: r => (-1, r)
    | r => (1, r)
  let ipOk : Option (List Char × List Char) :=
    match body with
    | '0' :: r => some (['0'], r)
    | c :: r => if isDig c ∧ c ≠ '0' then some (c :: r.takeWhile isDig, r.dropWhile isDig) else none
    | [] => none
  match ipOk with
  | none => none
  | some (ip, afterInt) =>
    let fracPart : Option (List Char × List Char) :=
      match afterInt with
      | '.' :: r =>
        let fp := r.takeWhile isDig
        if fp = [] then none else some (fp, r.dropWhile isDig)
      | r => some ([], r)
    match fracPart with
    | none => none
    | some (fp, afterFrac) =>
      let expPart : Option (Int × List Char) :=
        match afterFrac with
        | e :: r =>
          if e = 'e' ∨ e = 'E' then
            let (esgn, eds) : Int × List Char :=
              match r with
              | '-' :: r2 => (-1, r2)
              | '+' :: r2 => (1, r2)
              | r2 => (1, r2)
            let ds := eds.takeWhile isDig
            if ds = [] then none else some (esgn * (digitsVal ds : Int), eds.dropWhile isDig)
          else some (0, e :: r)
        | [] => some (0, [])
      match expPart with
      | none => none
      | some (ex, rest) =>
        some (sgn * (digitsVal (ip ++ fp) : ℚ) / ((10 : ℚ) ^ fp.length) *
          ((10 : ℚ) ^ ex), rest)

mutual

/-- Recursive descent JSON value parser with explicit fuel; the fuel
passed at top level always suffices because every recursive call
consumes input. Mirrors `json.loads` (strict mode, without the
non-standard `NaN`/`Infinity` literals, which no claim uses). -/
def parseValue : Nat → List Char → Option (JVal × List Char)
  | 0, _ => none
  | fuel + 1, cs =>
    match skipWs cs with
    | [] => none
    | c :: rest =>
      if c = 'n' then (dropLit "ull".data rest).map (fun r => (JVal.null, r))
      else if c = 't' then (dropLit "rue".data rest).map (fun r => (JVal.bool true, r))
      else if c = 'f' then (dropLit "alse".data rest).map (fun r => (JVal.bool false, r))
      else if c = '"' then
        (parseStringLit fuel rest).map (fun p => (JVal.str (String.mk p.1), p.2))
      else if c = '[' then parseArray fuel rest
      else if c = '\x7b' then parseObject fuel rest
      else (parseNumber (c :: rest)).map (fun p => (JVal.num p.1, p.2))

/-- Body of a JSON string after the opening quote. -/
def parseStringLit : Nat → List Char → Option (List Char × List Char)
  | 0, _ => none
  | fuel + 1, cs =>
    match cs with
    | [] => none
    | '"' :: rest => some ([], rest)
    | '\\' :: e :: rest =>
      let dec : Option (Char × List Char) :=
        if e = '"' then some ('"', rest)
        else if e = '\\' then some ('\\', rest)
        else if e = '/' then some ('/', rest)
        else if e = 'b' then some ('\x08', rest)
        else if e = 'f' then some ('\x0c', rest)
        else if e = 'n' then some ('\n', rest)
        else if e = 'r' then some ('\x0d', rest)
        else if e = 't' then some ('\t', rest)
        else if e = 'u' then
          match rest with
          | h1 :: h2 :: h3 :: h4 :: rest2 =>
            match hexVal h1, hexVal h2, hexVal h3, hexVal h4 with
            | some a, some b, some c2, some d =>
              some (Char.ofNat (4096 * a + 256 * b + 16 * c2 + d), rest2)
            | _, _, _, _ => none
          | _ => none
        else none
      match dec with
      | none => none
      | some (ch, rest2) => (parseStringLit fuel rest2).map (fun p => (ch :: p.1, p.2))
    | c :: rest =>
      if c.toNat < 32 then none
      else (parseStringLit fuel rest).map (fun p => (c :: p.1, p.2))

/-- Array contents after the opening bracket. -/
def parseArray : Nat → List Char → Option (JVal × List Char)
  | 0, _ => none
  | fuel + 1, cs =>
    match skipWs cs with
    | ']' :: rest => some (JVal.arr [], rest)
    | cs2 =>
      match parseValue fuel cs2 with
      | none => none
      | some (v, rest) => parseArrayRest fuel [v] rest

/-- Remaining array items. -/
def parseArrayRest : Nat → List JVal → List Char → Option (JVal × List Char)
  | 0, _, _ => none
  | fuel + 1, acc, cs =>
    match skipWs cs with
    | ',' :: rest =>
      match parseValue fuel rest with
      | none => none
      | some (v, rest2) => parseArrayRest fuel (acc ++ [v]) rest2
    | ']' :: rest => some (JVal.arr acc, rest)
    | _ => none

/-- Object contents after the opening brace. -/
def parseObject : Nat → List Char → Option (JVal × List Char)
  | 0, _ => none
  | fuel + 1, cs =>
    match skipWs cs with
    | '\x7d' :: rest => some (JVal.obj [], rest)
    | cs2 =>
      match parseMember fuel cs2 with
      | none => none
      | some (kv, rest) => parseObjectRest fuel [kv] rest

/-- One `"key": value` member. -/
def parseMember : Nat → List Char → Option ((String × JVal) × List Char)
  | 0, _ => none
  | fuel + 1, cs =>
    match skipWs cs with
    | '"' :: rest =>
      match parseStringLit fuel rest with
      | none => none
      | some (k, rest2) =>
        match skipWs rest2 with
        | ':' :: rest3 =>
          (parseValue fuel rest3).map (fun p => ((String.mk k, p.1), p.2))
        | _ => none
    | _ => none

/-- Remaining object members. -/
def parseObjectRest : Nat → List (String × JVal) → List Char →
    Option (JVal × List Char)
  | 0, _, _ => none
  | fuel + 1, acc, cs =>
    match skipWs cs with
    | ',' :: rest =>
      match parseMember fuel rest with
      | none => none
      | some (kv, rest2) => parseObjectRest fuel (acc ++ [kv]) rest2
    | '\x7d' :: rest => some (JVal.obj acc, rest)
    | _ => none

end

/-- Python `json.loads`: parse one value, allow trailing whitespace
only; any failure is a `JSONDecodeError` (a `ValueError`), modelled as
`none`. -/
def jsonLoads (s : String) : Option JVal :=
  match parseValue (s.data.length + 1) s.data with
  | some (v, rest) => if (skipWs rest).isEmpty then some v else none
  | none => none

/-- Serialization of one character inside a JSON string, as
`json.dumps` writes it with the default `ensure_ascii=True`: quote,
backslash and control characters are escaped, non-ASCII characters
become a `u` escape (astral characters, which need surrogate pairs,
do not occur in cleaned ASCII bodies and are written as one escape
here). -/
def hexDigit (n : Nat) : Char :=
  if n < 10 then Char.ofNat (48 + n) else Char.ofNat (87 + n)

/-- Four-digit hex escape body. -/
def uEscape (n : Nat) : List Char :=
  ['\\', 'u', hexDigit (n / 4096 % 16), hexDigit (n / 256 % 16),
    hexDigit (n / 16 % 16), hexDigit (n % 16)]

/-- JSON string-character serialization (see `uEscape`). -/
def dumpChar (c : Char) : List Char :=
  if c = '"' then ['\\', '"']
  else if c = '\\' then ['\\', '\\']
  else if c = '\n' then ['\\', 'n']
  else if c = '\t' then ['\\', 't']
  else if c = '\x0d' then ['\\', 'r']
  else if c = '\x08' then ['\\', 'b']
  else if c = '\x0c' then ['\\', 'f']
  else if c.toNat < 32 ∨ 126 < c.toNat then uEscape c.toNat
  else [c]

/-- Rendering of a number by `json.dumps`. The source only ever
serializes values that came back from `json.loads` or Python literals;
integral values print as integers and other rationals in a
numerator-slash-denominator form (an abstraction: no claim reads the
serialized text back). -/
def dumpNum (q : ℚ) : List Char :=
  if q.den = 1 then (toString q.num).data else (toString q).data

mutual

/-- Python `json.dumps` (the `json_to_string` helper of `analyze.py`),
producing the character list of the serialized text with the default
separators. -/
def dumpVal : JVal → List Char
  | .null => "null".data
  | .bool true => "true".data
  | .bool false => "false".data
  | .num q => dumpNum q
  | .str s => '"' :: (s.data.map dumpChar).flatten ++ ['"']
  | .arr l => '[' :: dumpList l ++ [']']
  | .obj l => '\x7b' :: dumpMembers l ++ ['\x7d']

/-- Comma-separated array items. -/
def dumpList : List JVal → List Char
  | [] => []
  | [v] => dumpVal v
  | v :: rest => dumpVal v ++ [',', ' '] ++ dumpList rest

/-- Comma-separated object members. -/
def dumpMembers : List (String × JVal) → List Char
  | [] => []
  | [(k, v)] => dumpVal (.str k) ++ [':', ' '] ++ dumpVal v
  | (k, v) :: rest => dumpVal (.str k) ++ [':', ' '] ++ dumpVal v ++ [',', ' '] ++ dumpMembers rest

end

/-- The `json_to_string` helper of `analyze.py`: `json.dumps(json_obj)`. -/
def json_to_string (v : JVal) : String :=
  String.mk (dumpVal v)

/-- Split a character list at newline characters, keeping empty lines;
the regex dot of Python matches any character except a newline, so the
brace search of `analyze_sms` never crosses one. -/
def splitNl : List Char → List (List Char)
  | [] => [[]]
  | c :: rest =>
    let r := splitNl rest
    if c = '\n' then [] :: r
    else
      match r with
      | line :: more => (c :: line) :: more
      | [] => [[c]]

/-- Match of the pattern (an opening brace, a greedy dot-star, a
closing brace) inside one newline-free line: from the first opening
brace to the last closing brace after it, when both exist. -/
def lineBraceMatch (line : List Char) : Option (List Char) :=
  match line.findIdx? (fun c => c = '\x7b'),
      (line.reverse.findIdx? (fun c => c = '\x7d')).map (fun j => line.length - 1 - j) with
  | some a, some b => if a < b then some ((line.drop a).take (b - a + 1)) else none
  | _, _ => none

/-- First line with a brace match. -/
def firstBraceMatch : List (List Char) → Option (List Char)
  | [] => none
  | l :: ls =>
    match lineBraceMatch l with
    | some m => some m
    | none => firstBraceMatch ls

/-- The `re.search` call of `analyze_sms`: leftmost match of the
brace-to-brace pattern, `none` when the text has no such substring.
Matches cannot cross newlines because the pattern uses the plain dot. -/
def extractBraced (content : String) : Option String :=
  (firstBraceMatch (splitNl content.data)).map String.mk

/-- The `analyze_sms` function of `llama.py`. The ollama call is an
external input: `resp` is the raw response text, or `error` when the
client call raised (any exception there is caught and the function
returns an empty text and `None`). The interpretation of the text is
the layered fallback of the source: when the brace search matches, try
to parse the match, then the whole text, then give `None`; when it
finds no match, try to parse the whole text and on failure return the
empty dict (the `except Exception` arm of the source returns
a literal empty dict there, not `None`). -/
def analyze_sms (resp : Except Unit String) : String × JVal :=
  match resp with
  | .error _ => ("", JVal.null)
  | .ok content =>
    match extractBraced content with
    | some sub =>
      match jsonLoads sub with
      | some v => (content, v)
      | none =>
        match jsonLoads content with
        | some v => (content, v)
        | none => (content, JVal.null)
    | none =>
      match jsonLoads content with
      | some v => (content, v)
      | none => (content, JVal.obj [])

/-- UTF-8 bytes of one character, as `str.encode()` produces them.
Cleaned bodies are pure ASCII, so the multi-byte branches only matter
for the generality of the statement. -/
def utf8Char (c : Char) : List Nat :=
  let n := c.toNat
  if n < 128 then [n]
  else if n < 2048 then [192 + n / 64, 128 + n % 64]
  else if n < 65536 then [224 + n / 4096, 128 + n / 64 % 64, 128 + n % 64]
  else [240 + n / 262144, 128 + n / 4096 % 64, 128 + n / 64 % 64, 128 + n % 64]

/-- Python `body.encode()`: the UTF-8 byte sequence of a string. -/
def utf8Bytes (s : String) : List Nat :=
  (s.data.map utf8Char).flatten

/-- The sine-derived round constants of MD5. -/
def md5K : List Nat :=
  [3614090360, 3905402710, 606105819, 3250441966, 4118548399, 1200080426, 2821735955, 4249261313,
   1770035416, 2336552879, 4294925233, 2304563134, 1804603682, 4254626195, 2792965006, 1236535329,
   4129170786, 3225465664, 643717713, 3921069994, 3593408605, 38016083, 3634488961, 3889429448,
   568446438, 3275163606, 4107603335, 1163531501, 2850285829, 4243563512, 1735328473, 2368359562,
   4294588738, 2272392833, 1839030562, 4259657740, 2763975236, 1272893353, 4139469664, 3200236656,
   681279174, 3936430074, 3572445317, 76029189, 3654602809, 3873151461, 530742520, 3299628645,
   4096336452, 1126891415, 2878612391, 4237533241, 1700485571, 2399980690, 4293915773, 2240044497,
   1873313359, 4264355552, 2734768916, 1309151649, 4149444226, 3174756917, 718787259, 3951481745]

/-- The per-round left-rotation amounts of MD5. -/
def md5S : List Nat :=
  [7, 12, 17, 22, 7, 12, 17, 22, 7, 12, 17, 22, 7, 12, 17, 22,
   5, 9, 14, 20, 5, 9, 14, 20, 5, 9, 14, 20, 5, 9, 14, 20,
   4, 11, 16, 23, 4, 11, 16, 23, 4, 11, 16, 23, 4, 11, 16, 23,
   6, 10, 15, 21, 6, 10, 15, 21, 6, 10, 15, 21, 6, 10, 15, 21]

/-- Bitwise complement within 32 bits. -/
def not32 (x : Nat) : Nat := 4294967295 ^^^ x

/-- Left rotation of a 32-bit word. -/
def rotl32 (x s : Nat) : Nat :=
  ((x <<< s) % 4294967296) ||| (x >>> (32 - s))

/-- MD5 padding: a 1 bit, zeros to 56 modulo 64, then the bit length as
a little-endian 64-bit quantity. -/
def md5Pad (msg : List Nat) : List Nat :=
  let len := msg.length
  let z := (56 + 64 - ((len + 1) % 64)) % 64
  msg ++ [128] ++ List.replicate z 0 ++
    (List.range 8).map (fun i => (8 * len) / (256 ^ i) % 256)

/-- Split into 64-byte blocks. -/
def chunks64 : List Nat → List (List Nat)
  | [] => []
  | c :: rest => ((c :: rest).take 64) :: chunks64 ((c :: rest).drop 64)
termination_by l => l.length
decreasing_by simp [List.length_drop]; omega

/-- The 16 little-endian 32-bit words of a block. -/
def toWords : List Nat → List Nat
  | b0 :: b1 :: b2 :: b3 :: rest =>
    (b0 + 256 * (b1 + 256 * (b2 + 256 * b3))) :: toWords rest
  | _ => []

/-- One of the 64 MD5 operations. -/
def md5Step (m : List Nat) (st : Nat × Nat × Nat × Nat) (i : Nat) : Nat × Nat × Nat × Nat :=
  let (a, b, c, d) := st
  let (f, g) :=
    if i < 16 then ((b &&& c) ||| (not32 b &&& d), i)
    else if i < 32 then ((d &&& b) ||| (not32 d &&& c), (5 * i + 1) % 16)
    else if i < 48 then (b ^^^ c ^^^ d, (3 * i + 5) % 16)
    else (c ^^^ (b ||| not32 d), (7 * i) % 16)
  let sum := (a + f + md5K.getD i 0 + m.getD g 0) % 4294967296
  (d, (b + rotl32 sum (md5S.getD i 0)) % 4294967296, b, c)

/-- Compression of one 64-byte block into the running state. -/
def md5Block (st : Nat × Nat × Nat × Nat) (block : List Nat) : Nat × Nat × Nat × Nat :=
  let (a0, b0, c0, d0) := st
  let m := toWords block
  let (a, b, c, d) := (List.range 64).foldl (md5Step m) (a0, b0, c0, d0)
  ((a0 + a) % 4294967296, (b0 + b) % 4294967296, (c0 + c) % 4294967296, (d0 + d) % 4294967296)

/-- Little-endian bytes of a 32-bit word. -/
def wordLE (w : Nat) : List Nat :=
  [w % 256, w / 256 % 256, w / 65536 % 256, w / 16777216 % 256]

/-- The 16 digest bytes of a byte message. -/
def md5Digest (msg : List Nat) : List Nat :=
  let (a, b, c, d) := (chunks64 (md5Pad msg)).foldl md5Block
    (1732584193, 4023233417, 2562383102, 271733878)
  wordLE a ++ wordLE b ++ wordLE c ++ wordLE d

/-- Two lowercase hex characters of a byte. -/
def byteHexChars (b : Nat) : List Char :=
  [hexDigit (b / 16 % 16), hexDigit (b % 16)]

/-- Python `hashlib.md5(body.encode()).hexdigest()`: the 32-character
lowercase hex digest of the UTF-8 bytes of a string. -/
def md5Hex (s : String) : String :=
  String.mk (((md5Digest (utf8Bytes s)).map byteHexChars).flatten)

/-- A parsed message as `parse_sms_xml` emits it: the attribute dict
after cleaning. A key absent from the dict and a key bound to `None`
behave identically downstream (both reach the assembler through
`sms.get(...)`), so absence is modelled by `null`. -/
structure SmsDict where
  date : JVal
  address : JVal
  body : JVal
  body_md5 : JVal

/-- The `analysis_result` dict built in `analyze_sms_list`; the
assembler always builds exactly these keys, so the dict is a
structure. -/
structure AnalysisResult where
  date : JVal
  source : JVal
  destination : JVal
  body : JVal
  body_md5 : JVal
  llm_output : JVal
  amount : JVal
  type : JVal
  transaction_source : JVal
  category : JVal

/-- Body of the per-message `try` of `analyze_sms_list`: interpret the
model response, then build the `analysis_result` dict. The dict values
are evaluated in source order and the first exception aborts the whole
record (`except Exception: continue`), so the result is `none` when
any step raises. `json_analysis.get` raises `AttributeError` when the
interpretation produced anything but a dict (in particular `None`),
and `floatify` propagates the `TypeError` of `float(None)`. -/
def analyzeOne (sms : SmsDict) (resp : Except Unit String) : Option AnalysisResult :=
  let ja := (analyze_sms resp).2
  let built : Except PyExc AnalysisResult := do
    let llm := JVal.str (json_to_string ja)
    let amount ←
      if pyTruthy ja then do
        let v ← dictGet ja "Amount" (JVal.num 0)
        let q ← floatify v
        pure (JVal.num q)
      else pure (JVal.num 0)
    let ty ← dictGet ja "Type" (JVal.str "Unknown")
    let tsrc ← dictGet1 ja "Source"
    let dest ← dictGet1 ja "Destination"
    let cat ← dictGet ja "Category" (JVal.str "Unknown")
    pure ⟨sms.date, sms.address, dest, sms.body, sms.body_md5, llm, amount, ty, tsrc, cat⟩
  match built with
  | .ok r => some r
  | .error _ => none

/-- The `analyze_sms_list` function of `analyze.py`. Each message is
paired with the response text its `analyze_sms` call would receive
from the service (the service is an external input). A message with a
falsy body is skipped before the call; a message whose record
construction raises is skipped by the per-message handler; every other
message appends its record. -/
def analyze_sms_list : List (SmsDict × Except Unit String) → List AnalysisResult
  | [] => []
  | (sms, resp) :: rest =>
    if pyTruthy sms.body then
      match analyzeOne sms resp with
      | some r => r :: analyze_sms_list rest
      | none => analyze_sms_list rest
    else analyze_sms_list rest

/-- Merge step of `ensure_keys`: a non-`None` value wins over the
default, a `None` value falls back to it. -/
def keyOr (v d : JVal) : JVal :=
  match v with
  | .null => d
  | v => v

/-- The `ensure_keys` function of `analyze.py`: the defaults dict
updated with the non-`None` entries of the record. The default for
`date` is itself `None`, so a `None` date survives. -/
def ensure_keys (r : AnalysisResult) : AnalysisResult :=
  ⟨keyOr r.date JVal.null,
   keyOr r.source (JVal.str ""),
   keyOr r.destination (JVal.str ""),
   keyOr r.body (JVal.str ""),
   keyOr r.body_md5 (JVal.str ""),
   keyOr r.llm_output (JVal.str ""),
   keyOr r.amount (JVal.num 0),
   keyOr r.type (JVal.str "Unknown"),
   keyOr r.transaction_source (JVal.str ""),
   keyOr r.category (JVal.str "Unknown")⟩

/-- A value bound into a sqlite column by the Python sqlite3 driver. -/
inductive SqlVal where
  | NULL : SqlVal
  | INT : Int → SqlVal
  | REAL : ℚ → SqlVal
  | TEXT : String → SqlVal
deriving DecidableEq

/-- Parameter binding of the sqlite3 driver: `None`, numbers, booleans
and strings bind; a list or dict raises `InterfaceError`, which is the
one way `cursor.execute` fails on this insert. -/
def bindVal (v : JVal) : Except PyExc SqlVal :=
  match v with
  | .null => .ok .NULL
  | .bool b => .ok (.INT (if b then 1 else 0))
  | .num q => .ok (.REAL q)
  | .str s => .ok (.TEXT s)
  | .arr _ => .error .interfaceError
  | .obj _ => .error .interfaceError

/-- A row of the `sms` table (the autoincrement id is not modelled; no
claim mentions it). -/
structure Row where
  date : SqlVal
  source : SqlVal
  destination : SqlVal
  body : SqlVal
  body_md5 : SqlVal
  llm_output : SqlVal
  amount : SqlVal
  type : SqlVal
  transaction_source : SqlVal
  category : SqlVal
deriving DecidableEq

/-- Binding of the ten insert parameters; when any value is unbindable
the statement raises (`InterfaceError` in every such case, so the
order in which the driver inspects parameters is immaterial). -/
def bindRecord (r : AnalysisResult) : Except PyExc Row :=
  match bindVal r.date, bindVal r.source, bindVal r.destination, bindVal r.body,
      bindVal r.body_md5, bindVal r.llm_output, bindVal r.amount, bindVal r.type,
      bindVal r.transaction_source, bindVal r.category with
  | .ok d, .ok s, .ok de, .ok b, .ok m, .ok l, .ok a, .ok t, .ok ts, .ok c =>
    .ok ⟨d, s, de, b, m, l, a, t, ts, c⟩
  | _, _, _, _, _, _, _, _, _, _ => .error .interfaceError

/-- The UNIQUE check of sqlite on `body_md5` as `INSERT OR IGNORE`
sees it inside the transaction: a row conflicts when an existing
(possibly uncommitted) row carries the same non-NULL `body_md5`; NULL
values never conflict with anything. -/
def md5Present (row : Row) (rows : List Row) : Bool :=
  rows.any (fun r2 => decide (r2.body_md5 = row.body_md5 ∧ row.body_md5 ≠ SqlVal.NULL))

/-- The insert loop of `save_to_sqlite` inside its `try`: each record
passes through `ensure_keys`, binds, and is appended unless ignored by
the UNIQUE constraint; the first exception aborts the loop. `rows` is
the table as visible inside the transaction. -/
def insertLoop (rows : List Row) : List AnalysisResult → Except PyExc (List Row)
  | [] => .ok rows
  | r :: rs =>
    match bindRecord (ensure_keys r) with
    | .error e => .error e
    | .ok row => insertLoop (if md5Present row rows then rows else rows ++ [row]) rs

/-- The `save_to_sqlite` function of `analyze.py`: run the insert loop
in a transaction; on success commit the whole batch, on any exception
roll the transaction back (the table keeps its prior rows) and
re-raise the error, which `main` treats as fatal. The returned pair is
the table after the call and the raised exception, if any. -/
def save_to_sqlite (db : List Row) (output : List AnalysisResult) :
    List Row × Option PyExc :=
  match insertLoop db output with
  | .ok rows => (rows, none)
  | .error e => (db, some e)

/-- A raw `<sms>` element: the attributes `parse_sms_xml` reads, each
possibly absent. Attribute values are strings. -/
structure RawSms where
  date : Option String
  address : Option String
  body : Option String

/-- Calendar date from a day count since the epoch (the standard
civil-from-days algorithm, exact for all integers). -/
def civilFromDays (z0 : Int) : Int × Int × Int :=
  let z := z0 + 719468
  let era := Int.fdiv z 146097
  let doe := z - era * 146097
  let yoe := Int.fdiv (doe - Int.fdiv doe 1460 + Int.fdiv doe 36524 - Int.fdiv doe 146096) 365
  let doy := doe - (365 * yoe + Int.fdiv yoe 4 - Int.fdiv yoe 100)
  let mp := Int.fdiv (5 * doy + 2) 153
  let d := doy - Int.fdiv (153 * mp + 2) 5 + 1
  let m := mp + (if mp < 10 then 3 else -9)
  ((yoe + era * 400) + (if m ≤ 2 then 1 else 0), m, d)

/-- Decimal digits of a nonnegative integer, zero-padded to a width. -/
def padNum (w : Nat) (n : Int) : List Char :=
  let ds := (toString n.toNat).data
  List.replicate (w - ds.length) '0' ++ ds

/-- Python `datetime.datetime.fromtimestamp(ms / 1000).strftime(...)`
with the format of the source. The local timezone is modelled as UTC
(no claim depends on the rendered text). The failure modes mirror
CPython on a 64-bit platform: seconds beyond the `time_t` range raise
`OverflowError`; seconds whose year does not fit the C `tm_year` field
raise `OSError` from `localtime`; a representable year outside 1..9999
raises `ValueError` from the datetime constructor. Only the first two
escape the `except (ValueError, TypeError)` of the caller. -/
def fromtimestampFmt (ms : Int) : Except PyExc String :=
  if ms < -9223372036854775808000 ∨ 9223372036854775807999 < ms then .error .overflowError
  else
    let secs := Int.fdiv ms 1000
    let days := Int.fdiv secs 86400
    let rem := secs - 86400 * days
    let (y, mo, da) := civilFromDays days
    if y > 2147485547 ∨ y < -2147481748 then .error .osError
    else if y < 1 ∨ y > 9999 then .error .valueError
    else .ok (String.mk (padNum 4 y ++ '-' :: padNum 2 mo ++ '-' :: padNum 2 da ++
      ' ' :: padNum 2 (Int.fdiv rem 3600) ++ ':' :: padNum 2 (Int.fdiv rem 60 % 60) ++
      ':' :: padNum 2 (rem % 60)))

/-- The date branch of `parse_sms_xml`: `int(...)` then the timestamp
conversion, with `ValueError` and `TypeError` caught and turned into a
`None` date; any other exception propagates out of the per-message
code. -/
def convertDate (ds : String) : Except PyExc (Option String) :=
  match pyInt ds with
  | .error .valueError => .ok none
  | .error .typeError => .ok none
  | .error e => .error e
  | .ok n =>
    match fromtimestampFmt n with
    | .ok s => .ok (some s)
    | .error .valueError => .ok none
    | .error .typeError => .ok none
    | .error e => .error e

/-- Processing of one `<sms>` element inside `parse_sms_xml`: timestamp
conversion, address strip, body cleaning and fingerprint. An uncaught
exception aborts the whole parse (the enclosing handler logs and
re-raises). -/
def processSms (a : RawSms) : Except PyExc SmsDict := do
  let d : JVal ←
    match a.date with
    | none => pure JVal.null
    | some ds =>
      match convertDate ds with
      | .ok (some s) => pure (JVal.str s)
      | .ok none => pure JVal.null
      | .error e => throw e
  let addr : JVal :=
    match a.address with
    | none => JVal.null
    | some s => JVal.str (pyStrip s)
  let (b, m) : JVal × JVal :=
    match a.body with
    | none => (JVal.null, JVal.null)
    | some bs =>
      let c := remove_newlines_non_ascii bs
      (JVal.str c, JVal.str (md5Hex c))
  pure ⟨d, addr, b, m⟩

/-- The element loop of `parse_sms_xml` over the `<sms>` elements of a
well-formed document: the first uncaught per-element exception aborts
the whole parse. -/
def parse_sms_xml (l : List RawSms) : Except PyExc (List SmsDict) :=
  l.mapM processSms

/-- Invariant of a finished insert run: every record of the batch binds
to a row whose fingerprint is already present in the table. -/
def RecordsOk (rows : List Row) : List AnalysisResult → Prop
  | [] => True
  | r :: rs =>
    (∃ row, bindRecord (ensure_keys r) = .ok row ∧ md5Present row rows = true) ∧
      RecordsOk rows rs

/-- A concrete parsed message with a truthy body, used as the message
under test in concrete evaluations. -/
def sentinelSms : SmsDict :=
  ⟨JVal.null, JVal.str "VM-SBIINB", JVal.str "Dear user, a payment message", JVal.str "0a1b2c"⟩

/-- A concrete parsed message whose cleaned body is empty. -/
def emptyBodySms : SmsDict :=
  ⟨JVal.null, JVal.null, JVal.str "", JVal.null⟩

/-- A concrete assembled record whose date is `None` (as the assembler
produces for a message whose timestamp was invalid or absent). -/
def nullDateRecord : AnalysisResult :=
  ⟨JVal.null, JVal.str "VM-SBIINB", JVal.str "", JVal.str "some body",
   JVal.str "0a1b2c", JVal.str "\x7b\x7d", JVal.num 0, JVal.str "Unknown",
   JVal.str "", JVal.str "Unknown"⟩

/-- A concrete assembled record with every field set. -/
def plainRecord : AnalysisResult :=
  ⟨JVal.str "2022-12-19 00:00:00", JVal.str "VM-SBIINB", JVal.str "tpslQR",
   JVal.str "Dear user, debited Rs480.0", JVal.str "8f773f89", JVal.str "out",
   JVal.num 480, JVal.str "Debit", JVal.str "X2684", JVal.str "Utility Bills"⟩

/-- A concrete normalized message whose cleaned body is the two
characters of the word hi, carrying its fingerprint. -/
def smsHiDict : SmsDict :=
  ⟨JVal.null, JVal.null, JVal.str "hi", JVal.str (md5Hex "hi")⟩

/-- A record whose every field is `None`, for exercising the
defaulting step. -/
def allNullRecord : AnalysisResult :=
  ⟨JVal.null, JVal.null, JVal.null, JVal.null, JVal.null, JVal.null,
   JVal.null, JVal.null, JVal.null, JVal.null⟩

theorem insertLoop_extends (out : List AnalysisResult) :
    ∀ rows rows2 : List Row, insertLoop rows out = .ok rows2 → ∃ t, rows2 = rows ++ t := by
  induction out with
  | nil =>
    intro rows rows2 h
    simp only [insertLoop] at h
    exact ⟨[], by simp [← Except.ok.injEq rows rows2 |>.mp h]⟩
  | cons r rs ih =>
    intro rows rows2 h
    simp only [insertLoop] at h
    cases hb : bindRecord (ensure_keys r) with
    | error e => rw [hb] at h; cases h
    | ok row =>
      rw [hb] at h
      by_cases hp : md5Present row rows = true
      · simp only [hp, if_true] at h
        exact ih rows rows2 h
      · simp only [hp, if_false, Bool.false_eq_true] at h
        obtain ⟨t, ht⟩ := ih (rows ++ [row]) rows2 h
        exact ⟨row :: t, by simp [ht]⟩

theorem bindRecord_md5_ne_null (r : AnalysisResult) (row : Row)
    (h : bindRecord (ensure_keys r) = .ok row) : row.body_md5 ≠ SqlVal.NULL := by
  unfold bindRecord at h
  split at h
  · rename_i d s de b m l a t ts c hd hs hde hb hm hl ha ht hts hc
    cases h
    have hk : (ensure_keys r).body_md5 = keyOr r.body_md5 (JVal.str "") := rfl
    rw [hk] at hm
    cases hv : r.body_md5 <;> rw [hv] at hm <;>
      simp [keyOr, bindVal] at hm <;> simp [← hm]
  · cases h

theorem md5Present_append (row : Row) (rows t : List Row)
    (h : md5Present row rows = true) : md5Present row (rows ++ t) = true := by
  simp only [md5Present, List.any_append, Bool.or_eq_true]
  exact Or.inl h

theorem md5Present_self (row : Row) (rows : List Row)
    (h : row.body_md5 ≠ SqlVal.NULL) : md5Present row (rows ++ [row]) = true := by
  simp only [md5Present, List.any_append, List.any_cons, List.any_nil, Bool.or_eq_true]
  right
  left
  simp [h]

theorem records_ok_of_insertLoop (out : List AnalysisResult) :
    ∀ rows rows2 : List Row, insertLoop rows out = .ok rows2 → RecordsOk rows2 out := by
  induction out with
  | nil => intro rows rows2 _; trivial
  | cons r rs ih =>
    intro rows rows2 h
    simp only [insertLoop] at h
    cases hb : bindRecord (ensure_keys r) with
    | error e => rw [hb] at h; cases h
    | ok row =>
      rw [hb] at h
      by_cases hp : md5Present row rows = true
      · simp only [hp, if_true] at h
        obtain ⟨t, ht⟩ := insertLoop_extends rs rows rows2 h
        exact ⟨⟨row, hb, ht ▸ md5Present_append row rows t hp⟩, ih rows rows2 h⟩
      · simp only [hp, if_false, Bool.false_eq_true] at h
        obtain ⟨t, ht⟩ := insertLoop_extends rs (rows ++ [row]) rows2 h
        have hself := md5Present_self row rows (bindRecord_md5_ne_null r row hb)
        exact ⟨⟨row, hb, ht ▸ md5Present_append row (rows ++ [row]) t hself⟩,
          ih (rows ++ [row]) rows2 h⟩

theorem insertLoop_of_records_ok (out : List AnalysisResult) :
    ∀ rows : List Row, RecordsOk rows out → insertLoop rows out = .ok rows := by
  induction out with
  | nil => intro rows _; rfl
  | cons r rs ih =>
    intro rows hok
    obtain ⟨⟨row, hb, hp⟩, hrest⟩ := hok
    simp only [insertLoop, hb, hp, if_true]
    exact ih rows hrest

theorem byteHex_flat_length (bytes : List Nat) :
    ((bytes.map byteHexChars).flatten).length = 2 * bytes.length := by
  induction bytes with
  | nil => simp
  | cons b bs ih =>
    simp only [List.map_cons, List.flatten_cons, List.length_append, ih, byteHexChars,
      List.length_cons, List.length_nil]
    omega

theorem md5Digest_length (msg : List Nat) : (md5Digest msg).length = 16 := by
  unfold md5Digest
  obtain ⟨a, b, c, d⟩ := (chunks64 (md5Pad msg)).foldl md5Block
    (1732584193, 4023233417, 2562383102, 271733878)
  simp [wordLE]

theorem md5Hex_length (s : String) : (md5Hex s).length = 32 := by
  have h : (md5Hex s).length = ((md5Digest (utf8Bytes s)).map byteHexChars).flatten.length := rfl
  rw [h, byteHex_flat_length, md5Digest_length]

theorem processSms_body_md5 (m : RawSms) (s : SmsDict) (b : String)
    (hb : m.body = some b) (hp : processSms m = .ok s) :
    s.body_md5 = JVal.str (md5Hex (remove_newlines_non_ascii b)) := by
  unfold processSms at hp
  cases hd : m.date with
  | none =>
    rw [hd, hb] at hp
    simp only [pure, Except.pure, Bind.bind, Except.bind] at hp
    cases hp
    rfl
  | some ds =>
    rw [hd, hb] at hp
    cases hc : convertDate ds with
    | error e =>
      simp only [hc, Bind.bind, Except.bind, throw, throwThe, MonadExceptOf.throw] at hp
      cases hp
    | ok od =>
      cases od <;>
        · simp only [hc, pure, Except.pure, Bind.bind, Except.bind] at hp
          cases hp
          rfl

/-- C7: persistence is idempotent. Inserting a record whose content
fingerprint already exists in the store is silently ignored, so
re-running `save_to_sqlite` with an identical batch leaves the table
unchanged (zero additional rows) and raises no error. -/
theorem c7_persistence_idempotent (db : List Row) (out : List AnalysisResult)
    (db2 : List Row) (h : save_to_sqlite db out = (db2, none)) :
    save_to_sqlite db2 out = (db2, none) := by
  unfold save_to_sqlite at h ⊢
  cases hin : insertLoop db out with
  | error e => rw [hin] at h; simp at h
  | ok rows =>
    rw [hin] at h
    have hr : rows = db2 := congrArg Prod.fst h
    subst hr
    rw [insertLoop_of_records_ok out rows (records_ok_of_insertLoop out db rows hin)]

/-- Witness for C7 at a concrete batch of one record: the second run
returns the table of the first run unchanged, with no error. -/
theorem c7_persistence_idempotent_witness :
    save_to_sqlite (save_to_sqlite [] [plainRecord]).1 [plainRecord] =
      ((save_to_sqlite [] [plainRecord]).1, none) :=
  c7_persistence_idempotent [] [plainRecord] (save_to_sqlite [] [plainRecord]).1 rfl

/-- C8: relational persistence of a batch is all-or-nothing. When any
insert raises, the transaction is rolled back, the table is exactly
the prior table, and the error is surfaced to the caller (which
re-raises it as fatal); when no insert raises, the whole batch is
committed at once: the table only grows, and every record of the
batch is represented in it (inserted, or ignored because its
fingerprint was already present). -/
theorem c8_transactional (db : List Row) (out : List AnalysisResult) :
    match save_to_sqlite db out with
    | (rows, some _) => rows = db
    | (rows, none) => (∃ t, rows = db ++ t) ∧ RecordsOk rows out := by
  unfold save_to_sqlite
  cases hin : insertLoop db out with
  | error e => simp
  | ok rows =>
    exact ⟨insertLoop_extends out db rows hin, records_ok_of_insertLoop out db rows hin⟩

/-- C1: evaluation of the pipeline at the sentinel phrases, showing the
claim fails on the code. For each of the six sentinel phrases as the
raw model text, the interpreter returns the empty dict (not `None`),
the assembler appends a record for the message (output length 1
instead of the claimed exclusion), and persistence inserts a row for
it. -/
theorem c1_sentinel_record_persisted :
    ((analyze_sms_list [(sentinelSms, .ok "Not expense")]).length = 1 ∧
      ((save_to_sqlite [] (analyze_sms_list [(sentinelSms, .ok "Not expense")])).1).length = 1) ∧
    ((analyze_sms_list [(sentinelSms, .ok "Amount not clear")]).length = 1 ∧
      ((save_to_sqlite [] (analyze_sms_list [(sentinelSms, .ok "Amount not clear")])).1).length = 1) ∧
    ((analyze_sms_list [(sentinelSms, .ok "Bill payment reminder")]).length = 1 ∧
      ((save_to_sqlite [] (analyze_sms_list [(sentinelSms, .ok "Bill payment reminder")])).1).length = 1) ∧
    ((analyze_sms_list [(sentinelSms, .ok "Credit card bill payment receipt")]).length = 1 ∧
      ((save_to_sqlite [] (analyze_sms_list [(sentinelSms, .ok "Credit card bill payment receipt")])).1).length = 1) ∧
    ((analyze_sms_list [(sentinelSms, .ok "Money requested")]).length = 1 ∧
      ((save_to_sqlite [] (analyze_sms_list [(sentinelSms, .ok "Money requested")])).1).length = 1) ∧
    ((analyze_sms_list [(sentinelSms, .ok "Money credited/refunded")]).length = 1 ∧
      ((save_to_sqlite [] (analyze_sms_list [(sentinelSms, .ok "Money credited/refunded")])).1).length = 1) :=
  ⟨⟨rfl, rfl⟩, ⟨rfl, rfl⟩, ⟨rfl, rfl⟩, ⟨rfl, rfl⟩, ⟨rfl, rfl⟩, ⟨rfl, rfl⟩⟩

/-- C2 counterexample: the raw model text Not expense has no braced
substring and is not parseable JSON, yet the interpreter returns the
empty dict rather than the absent structured object the claim
requires. -/
theorem c2_counterexample :
    extractBraced "Not expense" = none ∧ jsonLoads "Not expense" = none ∧
      (analyze_sms (.ok "Not expense")).2 = JVal.obj [] ∧ JVal.obj [] ≠ JVal.null :=
  ⟨rfl, rfl, rfl, fun h => JVal.noConfusion h⟩

/-- C2 as amended: the interpreter applies the layered fallback in
order. When the brace search finds a (single-line) candidate, it
parses the candidate, then the whole text, and yields the absent
object on double failure; when the search finds no candidate, it
parses the whole text and yields the empty dict, not the absent
object, on failure. The raw text is returned unchanged alongside. -/
theorem c2_layered_fallback (content : String) :
    (analyze_sms (.ok content)).1 = content ∧
    (analyze_sms (.ok content)).2 =
      (match extractBraced content with
      | some sub => ((jsonLoads sub).or (jsonLoads content)).getD JVal.null
      | none => (jsonLoads content).getD (JVal.obj [])) := by
  unfold analyze_sms
  cases he : extractBraced content with
  | none => cases hc : jsonLoads content <;> simp [he, hc]
  | some sub => cases hs : jsonLoads sub <;> cases hc : jsonLoads content <;> simp [he, hs, hc]

/-- C3 counterexample: a record whose date is `None` is persisted with
a NULL date column (and no error), so not every column of a persisted
row is non-null. -/
theorem c3_counterexample :
    (save_to_sqlite [] [nullDateRecord]).1.map Row.date = [SqlVal.NULL] ∧
      (save_to_sqlite [] [nullDateRecord]).2 = none :=
  ⟨rfl, rfl⟩

/-- C3 as amended: after `ensure_keys`, every stored field except the
date is non-null, and each null field other than the date is replaced
by its documented default (amount 0.0, type and category Unknown,
source, destination and transaction source empty string); the default
for the date is itself `None`, so the date passes through unchanged
and a null date is persisted as NULL. -/
theorem c3_nonnull_except_date (r : AnalysisResult)
    (h1 : r.amount = JVal.null) (h2 : r.type = JVal.null) (h3 : r.category = JVal.null)
    (h4 : r.source = JVal.null) (h5 : r.destination = JVal.null)
    (h6 : r.transaction_source = JVal.null) :
    (ensure_keys r).date = r.date ∧
    (ensure_keys r).amount = JVal.num 0 ∧
    (ensure_keys r).type = JVal.str "Unknown" ∧
    (ensure_keys r).category = JVal.str "Unknown" ∧
    (ensure_keys r).source = JVal.str "" ∧
    (ensure_keys r).destination = JVal.str "" ∧
    (ensure_keys r).transaction_source = JVal.str "" ∧
    (∀ r2 : AnalysisResult,
      (ensure_keys r2).source ≠ JVal.null ∧ (ensure_keys r2).destination ≠ JVal.null ∧
      (ensure_keys r2).body ≠ JVal.null ∧ (ensure_keys r2).body_md5 ≠ JVal.null ∧
      (ensure_keys r2).llm_output ≠ JVal.null ∧ (ensure_keys r2).amount ≠ JVal.null ∧
      (ensure_keys r2).type ≠ JVal.null ∧ (ensure_keys r2).transaction_source ≠ JVal.null ∧
      (ensure_keys r2).category ≠ JVal.null) := by
  refine ⟨?_, by simp [ensure_keys, keyOr, h1], by simp [ensure_keys, keyOr, h2],
    by simp [ensure_keys, keyOr, h3], by simp [ensure_keys, keyOr, h4],
    by simp [ensure_keys, keyOr, h5], by simp [ensure_keys, keyOr, h6], ?_⟩
  · cases hv : r.date <;> simp [ensure_keys, keyOr, hv]
  · intro r2
    refine ⟨?_, ?_, ?_, ?_, ?_, ?_, ?_, ?_, ?_⟩
    · cases hv : r2.source <;> simp [ensure_keys, keyOr, hv]
    · cases hv : r2.destination <;> simp [ensure_keys, keyOr, hv]
    · cases hv : r2.body <;> simp [ensure_keys, keyOr, hv]
    · cases hv : r2.body_md5 <;> simp [ensure_keys, keyOr, hv]
    · cases hv : r2.llm_output <;> simp [ensure_keys, keyOr, hv]
    · cases hv : r2.amount <;> simp [ensure_keys, keyOr, hv]
    · cases hv : r2.type <;> simp [ensure_keys, keyOr, hv]
    · cases hv : r2.transaction_source <;> simp [ensure_keys, keyOr, hv]
    · cases hv : r2.category <;> simp [ensure_keys, keyOr, hv]

/-- Witness for C3 at the record with every field `None`: all defaults
apply and the date stays `None`. -/
theorem c3_nonnull_except_date_witness :
    (ensure_keys allNullRecord).date = allNullRecord.date ∧
    (ensure_keys allNullRecord).amount = JVal.num 0 ∧
    (ensure_keys allNullRecord).type = JVal.str "Unknown" ∧
    (ensure_keys allNullRecord).category = JVal.str "Unknown" ∧
    (ensure_keys allNullRecord).source = JVal.str "" ∧
    (ensure_keys allNullRecord).destination = JVal.str "" ∧
    (ensure_keys allNullRecord).transaction_source = JVal.str "" ∧
    (∀ r2 : AnalysisResult,
      (ensure_keys r2).source ≠ JVal.null ∧ (ensure_keys r2).destination ≠ JVal.null ∧
      (ensure_keys r2).body ≠ JVal.null ∧ (ensure_keys r2).body_md5 ≠ JVal.null ∧
      (ensure_keys r2).llm_output ≠ JVal.null ∧ (ensure_keys r2).amount ≠ JVal.null ∧
      (ensure_keys r2).type ≠ JVal.null ∧ (ensure_keys r2).transaction_source ≠ JVal.null ∧
      (ensure_keys r2).category ≠ JVal.null) :=
  c3_nonnull_except_date allNullRecord rfl rfl rfl rfl rfl rfl

/-- C4 counterexample: an `<sms>` element whose date attribute is the
epoch-millisecond value 10^22 makes the timestamp conversion raise
`OverflowError`, which the `except (ValueError, TypeError)` handler
does not catch, so the whole parse aborts instead of nulling the
timestamp and continuing. -/
theorem c4_overflow_aborts :
    parse_sms_xml [⟨some "10000000000000000000000", none, none⟩] =
        .error PyExc.overflowError ∧
      convertDate "10000000000000000000000" = .error PyExc.overflowError :=
  ⟨rfl, rfl⟩

/-- C4 as amended: on non-numeric date input the timestamp is set to
null and processing of the message continues (likewise, inside the
conversion, for a numeric timestamp whose year falls outside the
datetime range, which raises the caught `ValueError`); but a timestamp
beyond the platform `time_t` range raises an uncaught `OverflowError`
(and one beyond the C `tm_year` range an uncaught `OSError`), aborting
`parse_sms_xml`. This theorem proves the kept part: a non-numeric date
yields a message with a null date and never fails the message. -/
theorem c4_nonnumeric_date_continues (d : String) (addr body : Option String)
    (h : pyInt d = .error PyExc.valueError) :
    ∃ out, processSms ⟨some d, addr, body⟩ = .ok out ∧ out.date = JVal.null := by
  have hc : convertDate d = .ok none := by simp [convertDate, h]
  cases addr with
  | none =>
    cases body with
    | none =>
      exact ⟨⟨JVal.null, JVal.null, JVal.null, JVal.null⟩,
        by simp [processSms, hc, Bind.bind, Except.bind, pure, Except.pure], rfl⟩
    | some bs =>
      exact ⟨⟨JVal.null, JVal.null, JVal.str (remove_newlines_non_ascii bs),
          JVal.str (md5Hex (remove_newlines_non_ascii bs))⟩,
        by simp [processSms, hc, Bind.bind, Except.bind, pure, Except.pure], rfl⟩
  | some a =>
    cases body with
    | none =>
      exact ⟨⟨JVal.null, JVal.str (pyStrip a), JVal.null, JVal.null⟩,
        by simp [processSms, hc, Bind.bind, Except.bind, pure, Except.pure], rfl⟩
    | some bs =>
      exact ⟨⟨JVal.null, JVal.str (pyStrip a), JVal.str (remove_newlines_non_ascii bs),
          JVal.str (md5Hex (remove_newlines_non_ascii bs))⟩,
        by simp [processSms, hc, Bind.bind, Except.bind, pure, Except.pure], rfl⟩

/-- Witness for C4 at a concrete non-numeric date attribute. -/
theorem c4_nonnumeric_date_continues_witness :
    ∃ out, processSms ⟨some "notanumber", none, none⟩ = .ok out ∧
      out.date = JVal.null :=
  c4_nonnumeric_date_continues "notanumber" none none rfl

/-- C5: amount coercion. The string 480 coerces to the float 480.0 and
the string Rs480 to 0.0; any non-numeric string coerces to 0.0 and a
string amount never raises out of `floatify` (so assembly is never
aborted by a string amount); an absent Amount key falls back to the
`get` default 0, which coerces to 0.0. -/
theorem c5_amount_coercion (s : String) (l : List (String × JVal))
    (h1 : pyFloatStr s = none) (h2 : lookupLast l "Amount" = none) :
    floatify (JVal.str "480") = .ok (480 : ℚ) ∧
    floatify (JVal.str "Rs480") = .ok 0 ∧
    floatify (JVal.str s) = .ok 0 ∧
    (∀ t : String, ∃ q : ℚ, floatify (JVal.str t) = .ok q) ∧
    dictGet (JVal.obj l) "Amount" (JVal.num 0) = .ok (JVal.num 0) ∧
    floatify (JVal.num 0) = .ok 0 := by
  refine ⟨rfl, rfl, ?_, ?_, ?_, rfl⟩
  · simp [floatify, pyFloat, h1]
  · intro t
    cases ht : pyFloatStr t with
    | none => exact ⟨0, by simp [floatify, pyFloat, ht]⟩
    | some q => exact ⟨q, by simp [floatify, pyFloat, ht]⟩
  · simp [dictGet, h2]

/-- Witness for C5 at the non-numeric string Rs480 and the empty
structured object (no Amount key). -/
theorem c5_amount_coercion_witness :
    floatify (JVal.str "480") = .ok (480 : ℚ) ∧
    floatify (JVal.str "Rs480") = .ok 0 ∧
    floatify (JVal.str "Rs480") = .ok 0 ∧
    (∀ t : String, ∃ q : ℚ, floatify (JVal.str t) = .ok q) ∧
    dictGet (JVal.obj []) "Amount" (JVal.num 0) = .ok (JVal.num 0) ∧
    floatify (JVal.num 0) = .ok 0 :=
  c5_amount_coercion "Rs480" [] rfl rfl

/-- C6: the content fingerprint is the MD5 hex digest of the cleaned
body alone. It is a fixed-width 32-character hex string, identical
cleaned bodies give identical fingerprints whatever the sender or
timestamp of the message (the normalized message m may carry any date
and address), and under the collision-freedom the claim assumes of
the hash for the pair at hand, fingerprints agree exactly when the
cleaned bodies do. -/
theorem c6_fingerprint (B1 B2 : String) (m : RawSms) (s : SmsDict) (b : String)
    (hcf : md5Hex B1 = md5Hex B2 → B1 = B2)
    (hb : m.body = some b)
    (hclean : remove_newlines_non_ascii b = B1)
    (hp : processSms m = .ok s) :
    (md5Hex B1).length = 32 ∧ (md5Hex B1 = md5Hex B2 ↔ B1 = B2) ∧
      s.body_md5 = JVal.str (md5Hex B1) := by
  refine ⟨md5Hex_length B1, ⟨hcf, fun h => by rw [h]⟩, ?_⟩
  rw [← hclean]
  exact processSms_body_md5 m s b hb hp

/-- Witness for C6 at a concrete message: a body of two characters,
with no date and no address. -/
theorem c6_fingerprint_witness :
    (md5Hex "hi").length = 32 ∧ (md5Hex "hi" = md5Hex "hi" ↔ "hi" = "hi") ∧
      smsHiDict.body_md5 = JVal.str (md5Hex "hi") :=
  c6_fingerprint "hi" "hi" ⟨none, none, some "hi"⟩ smsHiDict "hi"
    (fun _ => rfl) rfl rfl rfl

/-- C9: a message whose interpreted structured object is absent
(`None`, whether from a transport error or unparseable output with a
braced candidate) or whose cleaned body is falsy is skipped: no record
is appended for it, the remaining messages are processed unchanged,
and nothing raises out of the batch loop. -/
theorem c9_skip_absent_or_empty (sms : SmsDict) (resp : Except Unit String)
    (rest : List (SmsDict × Except Unit String))
    (h : pyTruthy sms.body = false ∨ (analyze_sms resp).2 = JVal.null) :
    analyze_sms_list ((sms, resp) :: rest) = analyze_sms_list rest := by
  rcases h with hb | hj
  · simp [analyze_sms_list, hb]
  · by_cases hb : pyTruthy sms.body
    · have hone : analyzeOne sms resp = none := by
        unfold analyzeOne
        rw [hj]
        simp [pyTruthy, dictGet, Bind.bind, Except.bind, pure, Except.pure]
      simp [analyze_sms_list, hb, hone]
    · simp [analyze_sms_list, hb]

/-- Witness for C9 at a concrete message with an empty body and a
failed service call. -/
theorem c9_skip_absent_or_empty_witness :
    analyze_sms_list [(emptyBodySms, .error ())] = analyze_sms_list [] :=
  c9_skip_absent_or_empty emptyBodySms (.error ()) [] (Or.inl rfl)

/-- C10: when the interpreted structured object maps Amount to null,
`floatify` receives `None`, `float(None)` raises `TypeError`, which
`floatify` does not catch (it catches only `ValueError`); the
per-message handler catches it and the whole message is skipped, with
the rest of the batch processed unchanged. -/
theorem c10_null_amount_drops (sms : SmsDict) (resp : Except Unit String)
    (rest : List (SmsDict × Except Unit String)) (l : List (String × JVal))
    (h1 : (analyze_sms resp).2 = JVal.obj l)
    (h2 : lookupLast l "Amount" = some JVal.null) :
    analyze_sms_list ((sms, resp) :: rest) = analyze_sms_list rest := by
  by_cases hb : pyTruthy sms.body
  · have hne : l.isEmpty = false := by
      cases l with
      | nil => simp [lookupLast] at h2
      | cons a as => rfl
    have hone : analyzeOne sms resp = none := by
      unfold analyzeOne
      rw [h1]
      simp [pyTruthy, hne, dictGet, h2, floatify, pyFloat,
        Bind.bind, Except.bind, pure, Except.pure]
    simp [analyze_sms_list, hb, hone]
  · simp [analyze_sms_list, hb]

/-- Witness for C10 at a concrete message whose model response is a
braced object mapping Amount to null. -/
theorem c10_null_amount_drops_witness :
    analyze_sms_list [(sentinelSms, .ok "\x7b\"Amount\": null\x7d")] =
      analyze_sms_list [] :=
  c10_null_amount_drops sentinelSms (.ok "\x7b\"Amount\": null\x7d") []
    [("Amount", JVal.null)] rfl rfl
